import Mathlib

/-!
# CppWinDllResourceExtractor: a verification development

A shallow embedding of `ResourceBinaryView.h` and `ExtractorExe.cpp`.

* Handles and pointers are natural numbers, `nullptr` is `0`.
* The Windows API is a record of functions over an arbitrary host state `σ`
  (`Host σ`): every API call takes the host state and returns its result
  together with the next host state; `GetLastError` reads the host state.
* A C++ member function that may throw returns a `Result`: the exception
  raised (if any), the object after the call, and the host state after the
  call.  A `throw` leaves the object as the statements executed so far
  have left it (C++ does not roll anything back).
-/

namespace CppResourceExtractor

/-! ## Platform types -/

abbrev DWORD := Nat
abbrev BYTE := Nat
abbrev HMODULE := Nat
abbrev HRSRC := Nat
abbrev HGLOBAL := Nat
abbrev LPCVOID := Nat
abbrev LPCTSTR := Nat
abbrev FARPROC := Nat

/-- The null pointer / null handle. -/
abbrev nullptr : Nat := 0

/-- Windows SDK: `MAKEINTRESOURCE(i)` is the integer id reinterpreted as a pointer. -/
def MAKEINTRESOURCE (i : Nat) : LPCTSTR := i

/-- Windows SDK: `RT_RCDATA` is `MAKEINTRESOURCE(10)`, application-defined raw data. -/
def RT_RCDATA : LPCTSTR := MAKEINTRESOURCE 10

/-- The exceptions that occur in the program.  `ResourceAccessException`
(ResourceBinaryView.h:56-67) carries the `DWORD` error code and the message
given to its constructor; `runtime_error` is `std::runtime_error`. -/
inductive Exception where
  | ResourceAccessException (errorCode : DWORD) (message : String)
  | runtime_error (message : String)
  deriving DecidableEq, Repr

/-- Open mode flags of a file stream (`std::ios::out | binary | app`). -/
structure OpenMode where
  out : Bool
  binary : Bool
  app : Bool
  deriving DecidableEq, Repr

/-- The host environment: the Windows API calls the program makes, as
functions over a host state `σ`.  Nothing is assumed about their answers. -/
structure Host (σ : Type) where
  FindResource : HMODULE → LPCTSTR → LPCTSTR → σ → HRSRC × σ
  LoadResource : HMODULE → HRSRC → σ → HGLOBAL × σ
  LockResource : HGLOBAL → σ → LPCVOID × σ
  SizeofResource : HMODULE → HRSRC → σ → DWORD × σ
  GetLastError : σ → DWORD
  /-- The byte stored at an address of the process's address space. -/
  peek : σ → Nat → BYTE
  /-- Whether the file system lets a stream be opened on the path. -/
  openFile : String → OpenMode → σ → Bool × σ
  LoadLibrary : String → σ → HMODULE × σ
  GetProcAddress : HMODULE → String → σ → FARPROC × σ
  /-- Calling through a function pointer obtained from `GetProcAddress`. -/
  invoke : FARPROC → σ → σ
  FreeLibrary : HMODULE → σ → σ

/-! ## ResourceBinaryView (ResourceBinaryView.h:73-207) -/

/-- The two data members, with their default member initialisers
(`m_data{ nullptr }`, `m_size{ 0 }`), so that the default constructor
(line 78) is `{}`. -/
structure ResourceBinaryView where
  m_data : LPCVOID := nullptr
  m_size : DWORD := 0
  deriving DecidableEq, Repr

/-- Outcome of a member function that may throw. -/
structure Result (σ : Type) where
  /-- The exception thrown, `none` when the call returned normally. -/
  raised : Option Exception
  /-- The object after the call. -/
  view : ResourceBinaryView
  /-- The host state after the call. -/
  host : σ

namespace ResourceBinaryView

/-- Line 93. -/
def Data (self : ResourceBinaryView) : LPCVOID := self.m_data

/-- Line 100. -/
def Size (self : ResourceBinaryView) : DWORD := self.m_size

/-- Line 108. -/
def data (self : ResourceBinaryView) : LPCVOID := self.Data

/-- Line 115. -/
def size (self : ResourceBinaryView) : Nat := self.Size

/-- Line 126. -/
def cbegin (self : ResourceBinaryView) : LPCVOID := self.Data

/-- Line 131. -/
def cend (self : ResourceBinaryView) : LPCVOID := self.Data + self.Size

/-- Line 136. -/
def begin (self : ResourceBinaryView) : LPCVOID := self.cbegin

/-- Line 141. -/
def end_ (self : ResourceBinaryView) : LPCVOID := self.cend

/-- Lines 159-163. -/
def Clear (_self : ResourceBinaryView) : ResourceBinaryView :=
  { m_data := nullptr, m_size := 0 }

def msgFindResource : String := "Cannot find the resource - FindResource failed."
def msgLoadResource : String := "Cannot load the resource - LoadResource failed."
def msgLockResource : String :=
  "Cannot access the resource's bytes - LockResource failed."
def msgSizeofResource : String :=
  "Cannot get the resource size - SizeofResource failed."

/-- Lines 174-206. -/
def Init {σ : Type} (h : Host σ) (self : ResourceBinaryView)
    (resourceId : LPCTSTR) (hModule : HMODULE) (s : σ) : Result σ :=
  let r1 := h.FindResource hModule resourceId RT_RCDATA s
  let hResourceInfo := r1.1
  if hResourceInfo = nullptr then
    let errorCode := h.GetLastError r1.2
    ⟨some (.ResourceAccessException errorCode msgFindResource), self, r1.2⟩
  else
    let r2 := h.LoadResource hModule hResourceInfo r1.2
    let hResourceData := r2.1
    if hResourceData = nullptr then
      let errorCode := h.GetLastError r2.2
      ⟨some (.ResourceAccessException errorCode msgLoadResource), self, r2.2⟩
    else
      let r3 := h.LockResource hResourceData r2.2
      let pvResourceData := r3.1
      if pvResourceData = nullptr then
        let errorCode := h.GetLastError r3.2
        ⟨some (.ResourceAccessException errorCode msgLockResource), self, r3.2⟩
      else
        let r4 := h.SizeofResource hModule hResourceInfo r3.2
        let dwResourceSize := r4.1
        if dwResourceSize = 0 then
          let errorCode := h.GetLastError r4.2
          ⟨some (.ResourceAccessException errorCode msgSizeofResource), self, r4.2⟩
        else
          ⟨none, { m_data := pvResourceData, m_size := dwResourceSize }, r4.2⟩

/-- Lines 152-155. -/
def Reset {σ : Type} (h : Host σ) (self : ResourceBinaryView)
    (resourceId : LPCTSTR) (hModule : HMODULE) (s : σ) : Result σ :=
  self.Init h resourceId hModule s

/-- Lines 86-89: the resolving constructor runs `Init` on an object whose
members hold their default initialisers.  When `Init` throws, no object
comes to exist. -/
def ctor {σ : Type} (h : Host σ) (resourceId : LPCTSTR) (hModule : HMODULE)
    (s : σ) : Except Exception ResourceBinaryView × σ :=
  let r := Init h {} resourceId hModule s
  match r.raised with
  | some e => (.error e, r.host)
  | none => (.ok r.view, r.host)

end ResourceBinaryView

/-! ## Reading memory and iterating a view -/

/-- A length-bounded read: the `n` bytes stored at `p`, `p + 1`, ..., `p + n - 1`. -/
def readBytes {σ : Type} (h : Host σ) (s : σ) (p : LPCVOID) (n : Nat) : List BYTE :=
  (List.range n).map (fun i => h.peek s (p + i))

/-- The iterator loop `for (it = first; it != last; ++it) yield *it`, the way
range-for and the standard algorithms walk `[begin(), end())`.  The loop
has no bound of its own, so the model takes fuel and answers `none` when
the fuel runs out before `it` meets `last`. -/
def iterate {σ : Type} (h : Host σ) (s : σ) : Nat → LPCVOID → LPCVOID → Option (List BYTE)
  | fuel, it, last =>
    if it = last then some []
    else
      match fuel with
      | 0 => none
      | fuel + 1 => (iterate h s fuel (it + 1) last).map (fun rest => h.peek s it :: rest)

/-! ## The program's world: host state, file system, console -/

/-- What `main` acts on: the host state, the contents of the files (a path
with no file has the empty content), and what was printed. -/
structure World (σ : Type) where
  os : σ
  files : String → List BYTE
  cout : List String
  cerr : List Exception

/-- A `std::ofstream`: the path it was opened on and whether it is open. -/
structure ofstream where
  path : String
  is_open : Bool
  deriving DecidableEq, Repr

namespace ofstream

/-- The constructor `std::ofstream(path, mode)`: asks the host to open the
file.  No exception is thrown when that fails (the stream's exception mask
is empty); the stream is then not open.  With `app` the existing content is
kept and writes go to the end; without it the file is truncated. -/
def ctor {σ : Type} (h : Host σ) (path : String) (mode : OpenMode) (w : World σ) :
    ofstream × World σ :=
  let r := h.openFile path mode w.os
  if r.1 then
    (⟨path, true⟩,
      { w with
        os := r.2
        files := fun q => if q = path ∧ mode.app = false then [] else w.files q })
  else
    (⟨path, false⟩, { w with os := r.2 })

/-- The call `write(p, n)`: on an open stream the `n` bytes at `p` go to the end
of the file; on a stream that is not open nothing is written. -/
def write {σ : Type} (h : Host σ) (self : ofstream) (p : LPCVOID) (n : Nat) (w : World σ) :
    World σ :=
  if self.is_open then
    { w with files := fun q => if q = self.path then w.files q ++ readBytes h w.os p n else w.files q }
  else w

/-- The call `close()`. -/
def close (self : ofstream) : ofstream := { self with is_open := false }

end ofstream

/-! ## ScopedDllLoader (ExtractorExe.cpp:25-52) -/

structure ScopedDllLoader where
  m_hDll : HMODULE
  deriving DecidableEq, Repr

namespace ScopedDllLoader

/-- Lines 28-31. -/
def ctor {σ : Type} (h : Host σ) (dllFilename : String) (s : σ) : ScopedDllLoader × σ :=
  let r := h.LoadLibrary dllFilename s
  (⟨r.1⟩, r.2)

/-- Lines 33-39: the destructor. -/
def dtor {σ : Type} (h : Host σ) (self : ScopedDllLoader) (s : σ) : σ :=
  if self.m_hDll ≠ nullptr then h.FreeLibrary self.m_hDll s else s

/-- Lines 41-44. -/
def GetHModule (self : ScopedDllLoader) : HMODULE := self.m_hDll

end ScopedDllLoader

/-! ## main (ExtractorExe.cpp:58-105) -/

def kExitOk : Int := 0
def kExitError : Int := 1

/-- The name of the extracted file (lines 74 and 79). -/
def dllFilename : String := "TestMyDll.dll"

/-- Line 74: `std::ios::out | std::ios::binary | std::ios::app`. -/
def outMode : OpenMode := { out := true, binary := true, app := true }

/-- Lines 100-104: the handler of the function-try block. -/
def handler {σ : Type} (e : Exception) (w : World σ) : Int × World σ :=
  (kExitError, { w with cerr := w.cerr ++ [e] })

/-- Lines 58-105.  `IDR_TEST_DLL` comes from `resource.h`, which is not part
of the sources, and is a parameter.  Objects with a destructor that does
something (`dll`) are destroyed where C++ destroys them: during unwinding,
before the handler runs, and at the `return`. -/
def main {σ : Type} (h : Host σ) (IDR_TEST_DLL : Nat) (w0 : World σ) : Int × World σ :=
  let w1 : World σ :=
    { w0 with
      cout := w0.cout ++ ["\n *** Extracting a DLL embedded as a binary resource\n",
                          " *** by Giovanni Dicanio\n\n"] }
  -- line 69
  let c := ResourceBinaryView.ctor h (MAKEINTRESOURCE IDR_TEST_DLL) nullptr w1.os
  match c.1 with
  | .error e => handler e { w1 with os := c.2 }
  | .ok dllResource =>
    let w2 : World σ := { w1 with os := c.2 }
    -- lines 74-76
    let f := ofstream.ctor h dllFilename outMode w2
    let outDllFile := f.1
    let w3 := outDllFile.write h dllResource.Data dllResource.Size f.2
    let _closed := outDllFile.close
    -- line 79
    let l := ScopedDllLoader.ctor h dllFilename w3.os
    let dll := l.1
    let w4 : World σ := { w3 with os := l.2 }
    if dll.GetHModule = nullptr then
      let w5 : World σ := { w4 with os := dll.dtor h w4.os }
      handler (.runtime_error "Cannot load test DLL.") w5
    else
      -- lines 87-88
      let g := h.GetProcAddress dll.GetHModule "DllHello" w4.os
      let pfnDllHello := g.1
      if pfnDllHello = nullptr then
        let w5 : World σ := { w4 with os := dll.dtor h g.2 }
        handler (.runtime_error "Cannot load test function from DLL.") w5
      else
        -- line 95
        let s6 := h.invoke pfnDllHello g.2
        let w6 : World σ := { w4 with os := s6, cout := w4.cout ++ [" All right!\n"] }
        (kExitOk, { w6 with os := dll.dtor h w6.os })

/-! ## Recording the host calls of a run -/

/-- One host call, with its arguments and its answer. -/
inductive Event where
  | FindResource (hModule : HMODULE) (name type : LPCTSTR) (ret : HRSRC)
  | LoadResource (hModule : HMODULE) (hResInfo : HRSRC) (ret : HGLOBAL)
  | LockResource (hResData : HGLOBAL) (ret : LPCVOID)
  | SizeofResource (hModule : HMODULE) (hResInfo : HRSRC) (ret : DWORD)
  | openFile (path : String) (mode : OpenMode) (ret : Bool)
  | LoadLibrary (path : String) (ret : HMODULE)
  | GetProcAddress (hModule : HMODULE) (name : String) (ret : FARPROC)
  | invoke (pfn : FARPROC)
  | FreeLibrary (hModule : HMODULE)
  deriving DecidableEq, Repr

/-- The same host, with a log: every state-changing call answers as `h` does
and appends itself to the log carried next to the host state. -/
def Host.traced {σ : Type} (h : Host σ) : Host (σ × List Event) where
  FindResource m n t s :=
    let r := h.FindResource m n t s.1
    (r.1, (r.2, s.2 ++ [Event.FindResource m n t r.1]))
  LoadResource m i s :=
    let r := h.LoadResource m i s.1
    (r.1, (r.2, s.2 ++ [Event.LoadResource m i r.1]))
  LockResource d s :=
    let r := h.LockResource d s.1
    (r.1, (r.2, s.2 ++ [Event.LockResource d r.1]))
  SizeofResource m i s :=
    let r := h.SizeofResource m i s.1
    (r.1, (r.2, s.2 ++ [Event.SizeofResource m i r.1]))
  GetLastError s := h.GetLastError s.1
  peek s a := h.peek s.1 a
  openFile p m s :=
    let r := h.openFile p m s.1
    (r.1, (r.2, s.2 ++ [Event.openFile p m r.1]))
  LoadLibrary p s :=
    let r := h.LoadLibrary p s.1
    (r.1, (r.2, s.2 ++ [Event.LoadLibrary p r.1]))
  GetProcAddress m n s :=
    let r := h.GetProcAddress m n s.1
    (r.1, (r.2, s.2 ++ [Event.GetProcAddress m n r.1]))
  invoke f s := (h.invoke f s.1, s.2 ++ [Event.invoke f])
  FreeLibrary m s := (h.FreeLibrary m s.1, s.2 ++ [Event.FreeLibrary m])

/-- The world a run starts in. -/
def World.start {σ : Type} (s : σ) (files : String → List BYTE) : World σ :=
  { os := s, files := files, cout := [], cerr := [] }

/-- The host calls of one run of `main`, in order. -/
def mainTrace {σ : Type} (h : Host σ) (IDR_TEST_DLL : Nat) (s : σ)
    (files : String → List BYTE) : List Event :=
  (main h.traced IDR_TEST_DLL (World.start (s, []) files)).2.os.2

/-- The host's answers along a run of `main`, in the order `main` asks: the
resolving constructor (line 69), the opening of the stream (line 74), on the
host state the constructor left, `LoadLibrary` (line 79) and `GetProcAddress`
(line 88); `atWrite` is the host state in which `write` (line 75) reads the
resource's memory. -/
structure MainAnswers (σ : Type) where
  resolved : Except Exception ResourceBinaryView
  opened : Bool
  atWrite : σ
  hDll : HMODULE
  pfnDllHello : FARPROC

def mainAnswers {σ : Type} (h : Host σ) (IDR_TEST_DLL : Nat) (s : σ) : MainAnswers σ :=
  let c := ResourceBinaryView.ctor h (MAKEINTRESOURCE IDR_TEST_DLL) nullptr s
  let o := h.openFile dllFilename outMode c.2
  let l := h.LoadLibrary dllFilename o.2
  let g := h.GetProcAddress l.1 "DllHello" l.2
  { resolved := c.1, opened := o.1, atWrite := o.2, hDll := l.1, pfnDllHello := g.1 }

/-- The handles passed to `FreeLibrary` in a trace, in order. -/
def unloads : List Event → List HMODULE
  | [] => []
  | Event.FreeLibrary m :: es => m :: unloads es
  | _ :: es => unloads es

/-- The answers of the `LoadLibrary` calls in a trace, in order. -/
def loads : List Event → List HMODULE
  | [] => []
  | Event.LoadLibrary _ m :: es => m :: loads es
  | _ :: es => loads es

/-- The function pointers called in a trace, in order. -/
def invocations : List Event → List FARPROC
  | [] => []
  | Event.invoke f :: es => f :: invocations es
  | _ :: es => invocations es

/-! ## The resolution protocol, as the specification words it -/

/-- What the host answers along the four calls of `Init`, made in the order
find, load, lock, size, each on the host state its predecessor left, with
the last-error code the host reports right after each call. -/
structure Answers where
  hResourceInfo : HRSRC
  errFind : DWORD
  hResourceData : HGLOBAL
  errLoad : DWORD
  pvResourceData : LPCVOID
  errLock : DWORD
  dwResourceSize : DWORD
  errSize : DWORD
  deriving DecidableEq, Repr

def answers {σ : Type} (h : Host σ) (resourceId : LPCTSTR) (hModule : HMODULE) (s : σ) :
    Answers :=
  let r1 := h.FindResource hModule resourceId RT_RCDATA s
  let r2 := h.LoadResource hModule r1.1 r1.2
  let r3 := h.LockResource r2.1 r2.2
  let r4 := h.SizeofResource hModule r1.1 r3.2
  { hResourceInfo := r1.1, errFind := h.GetLastError r1.2
    hResourceData := r2.1, errLoad := h.GetLastError r2.2
    pvResourceData := r3.1, errLock := h.GetLastError r3.2
    dwResourceSize := r4.1, errSize := h.GetLastError r4.2 }

/-- The error taxonomy of the specification (section 7). -/
inductive ErrorKind where
  | NotFound
  | LoadFailed
  | LockFailed
  | SizeZero
  deriving DecidableEq, Repr

/-- The message by which the code tells each kind apart. -/
def ErrorKind.message : ErrorKind → String
  | .NotFound => ResourceBinaryView.msgFindResource
  | .LoadFailed => ResourceBinaryView.msgLoadResource
  | .LockFailed => ResourceBinaryView.msgLockResource
  | .SizeZero => ResourceBinaryView.msgSizeofResource

/-- The resolution protocol in the specification's words (section 4.1): the
first failing step, in the order find, load, lock, size, decides the kind of
the error, which carries that step's last-error code; a length of exactly
`0` is a failure; otherwise the result is the address and the length. -/
def specResolve (a : Answers) : Except (ErrorKind × DWORD) (LPCVOID × DWORD) :=
  if a.hResourceInfo = nullptr then .error (.NotFound, a.errFind)
  else if a.hResourceData = nullptr then .error (.LoadFailed, a.errLoad)
  else if a.pvResourceData = nullptr then .error (.LockFailed, a.errLock)
  else if a.dwResourceSize = 0 then .error (.SizeZero, a.errSize)
  else .ok (a.pvResourceData, a.dwResourceSize)

/-- The exception the code throws for an error of the specification. -/
def specException : Except (ErrorKind × DWORD) (LPCVOID × DWORD) → Option Exception
  | .error (k, code) => some (.ResourceAccessException code k.message)
  | .ok _ => none

/-! ## Histories of a view -/

/-- The public operations of a view (the observers included). -/
inductive Op where
  | Reset (resourceId : LPCTSTR) (hModule : HMODULE)
  | Clear
  | Data
  | Size
  | begin
  | end_
  deriving DecidableEq, Repr

/-- One operation on a view.  An exception thrown by `Reset` is caught by
the caller, who goes on with the view as the failed call left it.  The
observers are `const` member functions: they compute a value from the view
and hand the view back. -/
def applyOp {σ : Type} (h : Host σ) (st : ResourceBinaryView × σ) : Op → ResourceBinaryView × σ
  | .Reset resourceId hModule =>
    let r := st.1.Reset h resourceId hModule st.2
    (r.view, r.host)
  | .Clear => (st.1.Clear, st.2)
  | .Data => let _p := st.1.Data; st
  | .Size => let _n := st.1.Size; st
  | .begin => let _p := st.1.begin; st
  | .end_ => let _p := st.1.end_; st

/-- A finite history of operations, starting from a default-constructed view. -/
def history {σ : Type} (h : Host σ) (s : σ) (ops : List Op) : ResourceBinaryView × σ :=
  ops.foldl (applyOp h) (({} : ResourceBinaryView), s)

/-- The empty state. -/
def ResourceBinaryView.IsEmpty (v : ResourceBinaryView) : Prop :=
  v.Data = nullptr ∧ v.Size = 0

/-- An initialised state. -/
def ResourceBinaryView.IsInitialised (v : ResourceBinaryView) : Prop :=
  v.Data ≠ nullptr ∧ 0 < v.Size

instance (v : ResourceBinaryView) : Decidable v.IsEmpty := by
  unfold ResourceBinaryView.IsEmpty; infer_instance

instance (v : ResourceBinaryView) : Decidable v.IsInitialised := by
  unfold ResourceBinaryView.IsInitialised; infer_instance

/-! ## Example hosts -/

/-- The fixed answers of an example host. -/
structure Script where
  /-- The one resource identifier the image has. -/
  id : LPCTSTR
  find : HRSRC
  load : HGLOBAL
  lock : LPCVOID
  size : DWORD
  openOk : Bool
  module : HMODULE
  proc : FARPROC

/-- An example host whose state is the last-error code: it answers from the
script, sets a Windows error code when it answers null, and stores at every
address the address modulo 256. -/
def scripted (a : Script) : Host DWORD where
  FindResource _ n t s :=
    if n = a.id ∧ t = RT_RCDATA ∧ a.find ≠ 0 then (a.find, s) else (0, 1814)
  LoadResource _ _ s := if a.load ≠ 0 then (a.load, s) else (0, 1812)
  LockResource _ s := if a.lock ≠ 0 then (a.lock, s) else (0, 6)
  SizeofResource _ _ s := if a.size ≠ 0 then (a.size, s) else (0, 13)
  GetLastError s := s
  peek _ addr := addr % 256
  openFile _ _ s := if a.openOk then (true, s) else (false, 32)
  LoadLibrary _ s := if a.module ≠ 0 then (a.module, s) else (0, 126)
  GetProcAddress _ _ s := if a.proc ≠ 0 then (a.proc, s) else (0, 127)
  invoke _ s := s
  FreeLibrary _ s := s

/-- An image with resource `101`: four bytes at address `4096`; the extracted
file opens, loads at `65536` and exports the function at `69632`. -/
def demo : Script :=
  { id := 101, find := 20, load := 30, lock := 4096, size := 4
    openOk := true, module := 65536, proc := 69632 }

/-- No file anywhere. -/
def noFiles : String → List BYTE := fun _ => []

/-- A file system whose only file is the destination, holding three bytes. -/
def oldDll : String → List BYTE := fun q => if q = dllFilename then [9, 8, 7] else []

/-! ## Lemmas on `Init` -/

theorem Init_raised {σ : Type} (h : Host σ) (v : ResourceBinaryView)
    (resourceId : LPCTSTR) (hModule : HMODULE) (s : σ) :
    (v.Init h resourceId hModule s).raised
      = specException (specResolve (answers h resourceId hModule s)) := by
  unfold ResourceBinaryView.Init specResolve answers
  dsimp only
  split_ifs <;> rfl

theorem Init_view_of_raised {σ : Type} (h : Host σ) (v : ResourceBinaryView)
    (resourceId : LPCTSTR) (hModule : HMODULE) (s : σ)
    (hr : (v.Init h resourceId hModule s).raised ≠ none) :
    (v.Init h resourceId hModule s).view = v := by
  unfold ResourceBinaryView.Init at hr ⊢
  dsimp only at hr ⊢
  split_ifs at hr ⊢ <;> first | rfl | exact absurd rfl hr

theorem Init_view_of_returned {σ : Type} (h : Host σ) (v : ResourceBinaryView)
    (resourceId : LPCTSTR) (hModule : HMODULE) (s : σ)
    (hr : (v.Init h resourceId hModule s).raised = none) :
    (v.Init h resourceId hModule s).view
        = { m_data := (answers h resourceId hModule s).pvResourceData
            m_size := (answers h resourceId hModule s).dwResourceSize }
      ∧ (answers h resourceId hModule s).pvResourceData ≠ nullptr
      ∧ (answers h resourceId hModule s).dwResourceSize ≠ 0 := by
  unfold ResourceBinaryView.Init at hr ⊢
  unfold answers
  dsimp only at hr ⊢
  split_ifs at hr ⊢
  exact ⟨rfl, ‹_›, ‹_›⟩

theorem specException_eq_none (r : Except (ErrorKind × DWORD) (LPCVOID × DWORD)) :
    specException r = none ↔ ∃ x, r = .ok x := by
  cases r with
  | error e => simp [specException]
  | ok x => simp [specException]

theorem specResolve_ok_iff (a : Answers) :
    (∃ x, specResolve a = .ok x) ↔
      (a.hResourceInfo ≠ nullptr ∧ a.hResourceData ≠ nullptr
        ∧ a.pvResourceData ≠ nullptr ∧ a.dwResourceSize ≠ 0) := by
  unfold specResolve
  split_ifs <;> simp_all

/-! ## C1: Reset on an identifier that is not found -/

/-- C1 (as the code behaves): when `FindResource` answers null, `Reset`
raises the `ResourceAccessException` with the "FindResource failed" message
and the last-error code of that call, and the view keeps the pointer and
the size it had; a view that was empty before is therefore empty after. -/
theorem C1_reset_not_found_keeps_view {σ : Type} (h : Host σ) (v : ResourceBinaryView)
    (resourceId : LPCTSTR) (hModule : HMODULE) (s : σ)
    (hfind : (h.FindResource hModule resourceId RT_RCDATA s).1 = nullptr) :
    (v.Reset h resourceId hModule s).raised
        = some (.ResourceAccessException
            (h.GetLastError (h.FindResource hModule resourceId RT_RCDATA s).2)
            ErrorKind.NotFound.message)
      ∧ (v.Reset h resourceId hModule s).view.Data = v.Data
      ∧ (v.Reset h resourceId hModule s).view.Size = v.Size
      ∧ (v.IsEmpty → (v.Reset h resourceId hModule s).view.IsEmpty) := by
  have hv : (v.Reset h resourceId hModule s).view = v := by
    unfold ResourceBinaryView.Reset ResourceBinaryView.Init
    dsimp only
    rw [if_pos hfind]
  refine ⟨?_, by rw [hv], by rw [hv], fun he => by rw [hv]; exact he⟩
  unfold ResourceBinaryView.Reset ResourceBinaryView.Init
  dsimp only
  rw [if_pos hfind]
  rfl

/-- C1, an instance: on the example host identifier `999` is not found; a
default-constructed view is reset with it, the error carries code `1814`,
and the view is empty afterwards. -/
theorem C1_reset_not_found_keeps_view_witness :
    ((scripted demo).FindResource 0 999 RT_RCDATA 0).1 = nullptr
      ∧ (({} : ResourceBinaryView).Reset (scripted demo) 999 0 0).raised
          = some (.ResourceAccessException 1814 ErrorKind.NotFound.message)
      ∧ (({} : ResourceBinaryView).Reset (scripted demo) 999 0 0).view.IsEmpty :=
  have hf : ((scripted demo).FindResource 0 999 RT_RCDATA 0).1 = nullptr := by decide
  have t := C1_reset_not_found_keeps_view (scripted demo) {} 999 0 0 hf
  ⟨hf, t.1, t.2.2.2 ⟨rfl, rfl⟩⟩

/-- C1 as written fails: a view that was initialised to resource `101` (four
bytes at `4096`) and is then reset with identifier `999`, which is not found,
is not in the empty state afterwards: it still has size `4` and pointer `4096`. -/
theorem C1_counterexample_stale_view :
    ((scripted demo).FindResource 0 999 RT_RCDATA 0).1 = nullptr
      ∧ ((({} : ResourceBinaryView).Reset (scripted demo) 101 0 0).view.Reset
            (scripted demo) 999 0 0).view.Size = 4
      ∧ ((({} : ResourceBinaryView).Reset (scripted demo) 101 0 0).view.Reset
            (scripted demo) 999 0 0).view.Data = 4096
      ∧ ¬ ((({} : ResourceBinaryView).Reset (scripted demo) 101 0 0).view.Reset
            (scripted demo) 999 0 0).view.IsEmpty := by
  decide

/-! ## C2: Reset on an existing, non-empty resource -/

/-- C2: when the host finds the resource, gives a non-null data handle, locks
it at a non-null address `p` and reports a length `n > 0`, `Reset` returns
without raising, whatever the view was before, and then `Data() = p` and
`Size() = n`, so `Size() > 0` and `Data() ≠ null`; the resolving constructor
yields the same view. -/
theorem C2_reset_succeeds {σ : Type} (h : Host σ) (v : ResourceBinaryView)
    (resourceId : LPCTSTR) (hModule : HMODULE) (s : σ) (p : LPCVOID) (n : DWORD)
    (hfind : (answers h resourceId hModule s).hResourceInfo ≠ nullptr)
    (hload : (answers h resourceId hModule s).hResourceData ≠ nullptr)
    (hlock : (answers h resourceId hModule s).pvResourceData = p)
    (hp : p ≠ nullptr)
    (hsize : (answers h resourceId hModule s).dwResourceSize = n)
    (hn : 0 < n) :
    (v.Reset h resourceId hModule s).raised = none
      ∧ (v.Reset h resourceId hModule s).view.Data = p
      ∧ (v.Reset h resourceId hModule s).view.Size = n
      ∧ 0 < (v.Reset h resourceId hModule s).view.Size
      ∧ (v.Reset h resourceId hModule s).view.Data ≠ nullptr
      ∧ (ResourceBinaryView.ctor h resourceId hModule s).1
          = .ok { m_data := p, m_size := n } := by
  have hok : ∀ u : ResourceBinaryView, (u.Init h resourceId hModule s).raised = none := by
    intro u
    rw [Init_raised, specException_eq_none, specResolve_ok_iff]
    exact ⟨hfind, hload, by rw [hlock]; exact hp, by rw [hsize]; exact Nat.pos_iff_ne_zero.mp hn⟩
  have hview : ∀ u : ResourceBinaryView,
      (u.Init h resourceId hModule s).view = { m_data := p, m_size := n } := by
    intro u
    rw [(Init_view_of_returned h u resourceId hModule s (hok u)).1, hlock, hsize]
  refine ⟨hok v, ?_, ?_, ?_, ?_, ?_⟩
  · show (v.Init h resourceId hModule s).view.Data = p
    rw [hview v]; rfl
  · show (v.Init h resourceId hModule s).view.Size = n
    rw [hview v]; rfl
  · show 0 < (v.Init h resourceId hModule s).view.Size
    rw [hview v]; exact hn
  · show (v.Init h resourceId hModule s).view.Data ≠ nullptr
    rw [hview v]; exact hp
  · unfold ResourceBinaryView.ctor
    dsimp only
    rw [hok {}, hview {}]

/-- C2, an instance: on the example host, resetting a view that pointed
elsewhere to resource `101` gives pointer `4096` and size `4`. -/
theorem C2_reset_succeeds_witness :
    (({ m_data := 7, m_size := 9 } : ResourceBinaryView).Reset (scripted demo) 101 0 0).raised
        = none
      ∧ (({ m_data := 7, m_size := 9 } : ResourceBinaryView).Reset
            (scripted demo) 101 0 0).view.Data = 4096
      ∧ (({ m_data := 7, m_size := 9 } : ResourceBinaryView).Reset
            (scripted demo) 101 0 0).view.Size = 4 :=
  have t := C2_reset_succeeds (scripted demo) { m_data := 7, m_size := 9 } 101 0 0 4096 4
    (by decide) (by decide) (by decide) (by decide) (by decide) (by decide)
  ⟨t.1, t.2.1, t.2.2.1⟩

/-! ## C3: the four-step protocol -/

/-- C3: `Reset` raises exactly when one of the four answers (resource
handle, data handle, locked address, length) is null or zero, taken in the
order find, load, lock, size; what it raises is the error of the
specification's protocol: the kind of the first failing step, with the
last-error code the host reports right after that step, unchanged. -/
theorem C3_reset_follows_protocol {σ : Type} (h : Host σ) (v : ResourceBinaryView)
    (resourceId : LPCTSTR) (hModule : HMODULE) (s : σ) :
    ((v.Reset h resourceId hModule s).raised ≠ none ↔
        ((answers h resourceId hModule s).hResourceInfo = nullptr
          ∨ (answers h resourceId hModule s).hResourceData = nullptr
          ∨ (answers h resourceId hModule s).pvResourceData = nullptr
          ∨ (answers h resourceId hModule s).dwResourceSize = 0))
      ∧ (v.Reset h resourceId hModule s).raised
          = specException (specResolve (answers h resourceId hModule s)) := by
  have hr : (v.Reset h resourceId hModule s).raised
      = specException (specResolve (answers h resourceId hModule s)) :=
    Init_raised h v resourceId hModule s
  refine ⟨?_, hr⟩
  rw [hr, Ne, specException_eq_none, specResolve_ok_iff]
  tauto

/-! ## C4: Clear -/

/-- C4: `Clear` is a total function (it cannot fail), its result is the empty
state whatever the view was, and clearing twice is clearing once. -/
theorem C4_clear_empty_idempotent (v : ResourceBinaryView) :
    v.Clear.Data = nullptr ∧ v.Clear.Size = 0 ∧ v.Clear.IsEmpty
      ∧ v.Clear.Clear = v.Clear := by
  refine ⟨rfl, rfl, ⟨rfl, rfl⟩, rfl⟩

/-! ## C10: a failed Reset changes nothing -/

/-- C10: whenever `Reset` raises, at whichever step, `Data()` and `Size()` are
afterwards what they were before the call. -/
theorem C10_reset_failure_atomic {σ : Type} (h : Host σ) (v : ResourceBinaryView)
    (resourceId : LPCTSTR) (hModule : HMODULE) (s : σ)
    (hr : (v.Reset h resourceId hModule s).raised ≠ none) :
    (v.Reset h resourceId hModule s).view.Data = v.Data
      ∧ (v.Reset h resourceId hModule s).view.Size = v.Size
      ∧ (v.Reset h resourceId hModule s).view = v := by
  have hv : (v.Reset h resourceId hModule s).view = v :=
    Init_view_of_raised h v resourceId hModule s hr
  exact ⟨by rw [hv], by rw [hv], hv⟩

/-- C10, an instance: a host whose length query answers `0` after find, load
and lock succeeded; the view keeps pointer `7` and size `9`. -/
theorem C10_reset_failure_atomic_witness :
    (({ m_data := 7, m_size := 9 } : ResourceBinaryView).Reset
        (scripted { demo with size := 0 }) 101 0 0).raised
        = some (.ResourceAccessException 13 ErrorKind.SizeZero.message)
      ∧ (({ m_data := 7, m_size := 9 } : ResourceBinaryView).Reset
          (scripted { demo with size := 0 }) 101 0 0).view.Data = 7
      ∧ (({ m_data := 7, m_size := 9 } : ResourceBinaryView).Reset
          (scripted { demo with size := 0 }) 101 0 0).view.Size = 9 :=
  have t := C10_reset_failure_atomic (scripted { demo with size := 0 })
    { m_data := 7, m_size := 9 } 101 0 0 (by decide)
  ⟨by decide, t.1, t.2.1⟩

/-! ## C5: the iterator range -/

theorem readBytes_succ {σ : Type} (h : Host σ) (s : σ) (p : LPCVOID) (n : Nat) :
    readBytes h s p (n + 1) = h.peek s p :: readBytes h s (p + 1) n := by
  unfold readBytes
  rw [List.range_succ_eq_map, List.map_cons, List.map_map]
  refine congrArg₂ _ rfl (List.map_congr_left ?_)
  intro i _
  show h.peek s (p + (i + 1)) = h.peek s (p + 1 + i)
  rw [Nat.add_assoc, Nat.add_comm 1 i]

theorem readBytes_length {σ : Type} (h : Host σ) (s : σ) (p : LPCVOID) (n : Nat) :
    (readBytes h s p n).length = n := by
  simp [readBytes]

theorem readBytes_getElem? {σ : Type} (h : Host σ) (s : σ) (p : LPCVOID) (n i : Nat)
    (hi : i < n) : (readBytes h s p n)[i]? = some (h.peek s (p + i)) := by
  simp [readBytes, List.getElem?_range hi]

theorem iterate_eq_readBytes {σ : Type} (h : Host σ) (s : σ) (n : Nat) :
    ∀ p : LPCVOID, iterate h s n p (p + n) = some (readBytes h s p n) := by
  induction n with
  | zero =>
    intro p
    unfold iterate
    simp [readBytes]
  | succ n ih =>
    intro p
    unfold iterate
    have hne : ¬ p = p + (n + 1) := Nat.ne_of_lt (Nat.lt_add_of_pos_right (Nat.succ_pos n))
    rw [if_neg hne]
    have hstep : p + (n + 1) = p + 1 + n := by rw [Nat.add_assoc, Nat.add_comm 1 n]
    rw [hstep]
    show Option.map (fun rest => h.peek s p :: rest) (iterate h s n (p + 1) (p + 1 + n))
      = some (readBytes h s p (n + 1))
    rw [ih (p + 1), readBytes_succ]
    rfl

/-- C5: `begin()` is `Data()`, `end()` is `Data() + Size()`, `cbegin`/`cend`
are the same pair, and the distance between them is `size()`; the iterator
loop from `begin()` to `end()` ends within `size()` steps and yields exactly
`size()` bytes, the `i`-th being the byte at `Data() + i`, which is what a
read of `Size()` bytes at `Data()` yields; on a default-constructed view
`Size() = 0`, `begin() = end()` and the loop yields the empty sequence
without taking a step. -/
theorem C5_iteration_is_size_bytes {σ : Type} (h : Host σ) (s : σ) (v : ResourceBinaryView) :
    v.begin = v.Data ∧ v.end_ = v.Data + v.Size
      ∧ v.cbegin = v.begin ∧ v.cend = v.end_
      ∧ v.end_ - v.begin = v.size
      ∧ (∃ bs, iterate h s v.size v.begin v.end_ = some bs
          ∧ bs.length = v.size
          ∧ (∀ i, i < v.Size → bs[i]? = some (h.peek s (v.Data + i)))
          ∧ bs = readBytes h s v.Data v.Size)
      ∧ ({} : ResourceBinaryView).Size = 0
      ∧ ({} : ResourceBinaryView).begin = ({} : ResourceBinaryView).end_
      ∧ iterate h s 0 ({} : ResourceBinaryView).begin ({} : ResourceBinaryView).end_
          = some [] := by
  refine ⟨rfl, rfl, rfl, rfl, ?_, ?_, rfl, rfl, ?_⟩
  · show v.m_data + v.m_size - v.m_data = v.m_size
    exact Nat.add_sub_cancel_left v.m_data v.m_size
  · refine ⟨readBytes h s v.Data v.Size, ?_, readBytes_length h s _ _, ?_, rfl⟩
    · exact iterate_eq_readBytes h s v.m_size v.m_data
    · intro i hi
      exact readBytes_getElem? h s _ _ i hi
  · unfold iterate
    rfl

/-! ## C9: the state invariant -/

theorem Reset_preserves_invariant {σ : Type} (h : Host σ) (v : ResourceBinaryView)
    (resourceId : LPCTSTR) (hModule : HMODULE) (s : σ)
    (hv : v.IsEmpty ∨ v.IsInitialised) :
    (v.Reset h resourceId hModule s).view.IsEmpty
      ∨ (v.Reset h resourceId hModule s).view.IsInitialised := by
  by_cases hr : (v.Init h resourceId hModule s).raised = none
  · right
    obtain ⟨hview, hp, hn⟩ := Init_view_of_returned h v resourceId hModule s hr
    show (v.Init h resourceId hModule s).view.IsInitialised
    rw [hview]
    exact ⟨hp, Nat.pos_of_ne_zero hn⟩
  · show (v.Init h resourceId hModule s).view.IsEmpty
      ∨ (v.Init h resourceId hModule s).view.IsInitialised
    rw [Init_view_of_raised h v resourceId hModule s hr]
    exact hv

theorem applyOp_preserves_invariant {σ : Type} (h : Host σ) (st : ResourceBinaryView × σ)
    (op : Op) (hv : st.1.IsEmpty ∨ st.1.IsInitialised) :
    (applyOp h st op).1.IsEmpty ∨ (applyOp h st op).1.IsInitialised := by
  cases op with
  | Reset resourceId hModule => exact Reset_preserves_invariant h st.1 resourceId hModule st.2 hv
  | Clear => exact Or.inl ⟨rfl, rfl⟩
  | Data => exact hv
  | Size => exact hv
  | begin => exact hv
  | end_ => exact hv

theorem foldl_applyOp_invariant {σ : Type} (h : Host σ) (ops : List Op) :
    ∀ st : ResourceBinaryView × σ, (st.1.IsEmpty ∨ st.1.IsInitialised) →
      ((ops.foldl (applyOp h) st).1.IsEmpty ∨ (ops.foldl (applyOp h) st).1.IsInitialised) := by
  induction ops with
  | nil => intro st hv; exact hv
  | cons op ops ih =>
    intro st hv
    rw [List.foldl_cons]
    exact ih _ (applyOp_preserves_invariant h st op hv)

/-- C9: a default-constructed view has `Data() = null` and `Size() = 0`; after
any finite history of `Reset` calls (returning or raising, on any host, from
any host state), `Clear` calls and observer calls the view is either empty
(`Data() = null`, `Size() = 0`) or initialised (`Data() ≠ null`, `Size() > 0`),
so neither a null pointer with a non-zero size nor a non-null pointer with
size zero is reached; and the observers `Data`, `Size`, `begin`, `end` leave
the view and the host state as they are. -/
theorem C9_view_invariant {σ : Type} (h : Host σ) (s : σ) (ops : List Op) :
    (({} : ResourceBinaryView).Data = nullptr ∧ ({} : ResourceBinaryView).Size = 0)
      ∧ ((history h s ops).1.IsEmpty ∨ (history h s ops).1.IsInitialised)
      ∧ ¬ ((history h s ops).1.Data = nullptr ∧ (history h s ops).1.Size ≠ 0)
      ∧ ¬ ((history h s ops).1.Data ≠ nullptr ∧ (history h s ops).1.Size = 0)
      ∧ (∀ st : ResourceBinaryView × σ,
          applyOp h st .Data = st ∧ applyOp h st .Size = st
            ∧ applyOp h st .begin = st ∧ applyOp h st .end_ = st) := by
  have hinv : (history h s ops).1.IsEmpty ∨ (history h s ops).1.IsInitialised :=
    foldl_applyOp_invariant h ops _ (Or.inl ⟨rfl, rfl⟩)
  refine ⟨⟨rfl, rfl⟩, hinv, ?_, ?_, fun st => ⟨rfl, rfl, rfl, rfl⟩⟩
  · rintro ⟨hd, hn⟩
    rcases hinv with he | hi
    · exact hn he.2
    · exact hi.1 hd
  · rintro ⟨hd, hn⟩
    rcases hinv with he | hi
    · exact hd he.1
    · exact absurd hi.2 (by rw [hn]; exact Nat.lt_irrefl 0)

/-! ## Lemmas on traces -/

theorem loads_append (a b : List Event) : loads (a ++ b) = loads a ++ loads b := by
  induction a with
  | nil => rfl
  | cons e a ih => cases e <;> simp [loads, ih]

theorem unloads_append (a b : List Event) : unloads (a ++ b) = unloads a ++ unloads b := by
  induction a with
  | nil => rfl
  | cons e a ih => cases e <;> simp [unloads, ih]

theorem invocations_append (a b : List Event) :
    invocations (a ++ b) = invocations a ++ invocations b := by
  induction a with
  | nil => rfl
  | cons e a ih => cases e <;> simp [invocations, ih]

theorem traced_Init {σ : Type} (h : Host σ) (v : ResourceBinaryView)
    (resourceId : LPCTSTR) (hModule : HMODULE) (s : σ) (t : List Event) :
    (v.Init h.traced resourceId hModule (s, t)).raised = (v.Init h resourceId hModule s).raised
      ∧ (v.Init h.traced resourceId hModule (s, t)).view = (v.Init h resourceId hModule s).view
      ∧ (v.Init h.traced resourceId hModule (s, t)).host.1 = (v.Init h resourceId hModule s).host
      ∧ loads (v.Init h.traced resourceId hModule (s, t)).host.2 = loads t
      ∧ unloads (v.Init h.traced resourceId hModule (s, t)).host.2 = unloads t
      ∧ invocations (v.Init h.traced resourceId hModule (s, t)).host.2 = invocations t := by
  unfold ResourceBinaryView.Init Host.traced
  dsimp only
  split_ifs <;>
    simp [loads_append, unloads_append, invocations_append, loads, unloads, invocations]

theorem traced_ctor {σ : Type} (h : Host σ)
    (resourceId : LPCTSTR) (hModule : HMODULE) (s : σ) (t : List Event) :
    (ResourceBinaryView.ctor h.traced resourceId hModule (s, t)).1
        = (ResourceBinaryView.ctor h resourceId hModule s).1
      ∧ (ResourceBinaryView.ctor h.traced resourceId hModule (s, t)).2.1
        = (ResourceBinaryView.ctor h resourceId hModule s).2
      ∧ loads (ResourceBinaryView.ctor h.traced resourceId hModule (s, t)).2.2 = loads t
      ∧ unloads (ResourceBinaryView.ctor h.traced resourceId hModule (s, t)).2.2 = unloads t
      ∧ invocations (ResourceBinaryView.ctor h.traced resourceId hModule (s, t)).2.2
          = invocations t := by
  have ht := traced_Init h {} resourceId hModule s t
  unfold ResourceBinaryView.ctor
  dsimp only
  rw [ht.1, ht.2.1]
  cases (ResourceBinaryView.Init h {} resourceId hModule s).raised with
  | none => exact ⟨rfl, ht.2.2.1, ht.2.2.2⟩
  | some e => exact ⟨rfl, ht.2.2.1, ht.2.2.2⟩

theorem ofstream_ctor_os {σ : Type} (h : Host σ) (path : String) (mode : OpenMode)
    (w : World σ) :
    (ofstream.ctor h path mode w).2.os = (h.openFile path mode w.os).2 := by
  unfold ofstream.ctor
  dsimp only
  split_ifs <;> rfl

theorem ofstream_write_os {σ : Type} (h : Host σ) (f : ofstream) (p : LPCVOID) (n : Nat)
    (w : World σ) : (f.write h p n w).os = w.os := by
  unfold ofstream.write
  split_ifs <;> rfl

theorem main_exit {σ : Type} (h : Host σ) (IDR_TEST_DLL : Nat) (w0 : World σ) :
    (main h IDR_TEST_DLL w0).1 =
      if (mainAnswers h IDR_TEST_DLL w0.os).resolved.isOk = true
          ∧ (mainAnswers h IDR_TEST_DLL w0.os).hDll ≠ nullptr
          ∧ (mainAnswers h IDR_TEST_DLL w0.os).pfnDllHello ≠ nullptr
      then kExitOk else kExitError := by
  unfold main mainAnswers
  dsimp only
  cases hc : (ResourceBinaryView.ctor h (MAKEINTRESOURCE IDR_TEST_DLL) nullptr w0.os).1 with
  | error e => simp [handler, Except.isOk, Except.toBool]
  | ok v =>
    simp only [ofstream_write_os, ofstream_ctor_os, ScopedDllLoader.ctor,
      ScopedDllLoader.GetHModule, handler, Except.isOk, Except.toBool]
    split_ifs <;> simp_all

theorem main_trace {σ : Type} (h : Host σ) (IDR_TEST_DLL : Nat) (s : σ)
    (files : String → List BYTE) :
    mainTrace h IDR_TEST_DLL s files =
      (ResourceBinaryView.ctor h.traced (MAKEINTRESOURCE IDR_TEST_DLL) nullptr (s, [])).2.2 ++
        (match (mainAnswers h IDR_TEST_DLL s).resolved with
          | .error _ => []
          | .ok _ =>
            [Event.openFile dllFilename outMode (mainAnswers h IDR_TEST_DLL s).opened,
             Event.LoadLibrary dllFilename (mainAnswers h IDR_TEST_DLL s).hDll]
            ++ (if (mainAnswers h IDR_TEST_DLL s).hDll = nullptr then []
                else
                  [Event.GetProcAddress (mainAnswers h IDR_TEST_DLL s).hDll "DllHello"
                      (mainAnswers h IDR_TEST_DLL s).pfnDllHello]
                  ++ (if (mainAnswers h IDR_TEST_DLL s).pfnDllHello = nullptr then []
                      else [Event.invoke (mainAnswers h IDR_TEST_DLL s).pfnDllHello])
                  ++ [Event.FreeLibrary (mainAnswers h IDR_TEST_DLL s).hDll])) := by
  have hc := traced_ctor h (MAKEINTRESOURCE IDR_TEST_DLL) nullptr s []
  obtain ⟨hc1, hc2, -⟩ := hc
  unfold mainTrace main mainAnswers World.start
  dsimp only
  generalize ResourceBinaryView.ctor h.traced (MAKEINTRESOURCE IDR_TEST_DLL) nullptr (s, [])
    = ct at hc1 hc2 ⊢
  obtain ⟨r, s1, t1⟩ := ct
  dsimp only at hc1 hc2 ⊢
  subst hc1 hc2
  cases hres : (ResourceBinaryView.ctor h (MAKEINTRESOURCE IDR_TEST_DLL) nullptr s).1 with
  | error e => simp [handler]
  | ok v =>
    simp only [ofstream_write_os, ofstream_ctor_os, ScopedDllLoader.ctor,
      ScopedDllLoader.GetHModule, ScopedDllLoader.dtor, handler, Host.traced]
    split_ifs <;> simp_all

theorem main_loads_unloads {σ : Type} (h : Host σ) (IDR_TEST_DLL : Nat) (s : σ)
    (files : String → List BYTE) :
    loads (mainTrace h IDR_TEST_DLL s files)
        = (if (mainAnswers h IDR_TEST_DLL s).resolved.isOk = true
            then [(mainAnswers h IDR_TEST_DLL s).hDll] else [])
      ∧ unloads (mainTrace h IDR_TEST_DLL s files)
        = (if (mainAnswers h IDR_TEST_DLL s).resolved.isOk = true
              ∧ (mainAnswers h IDR_TEST_DLL s).hDll ≠ nullptr
            then [(mainAnswers h IDR_TEST_DLL s).hDll] else [])
      ∧ invocations (mainTrace h IDR_TEST_DLL s files)
        = (if (mainAnswers h IDR_TEST_DLL s).resolved.isOk = true
              ∧ (mainAnswers h IDR_TEST_DLL s).hDll ≠ nullptr
              ∧ (mainAnswers h IDR_TEST_DLL s).pfnDllHello ≠ nullptr
            then [(mainAnswers h IDR_TEST_DLL s).pfnDllHello] else [])
      ∧ ((mainAnswers h IDR_TEST_DLL s).resolved.isOk = true →
          (mainAnswers h IDR_TEST_DLL s).hDll ≠ nullptr →
          (mainTrace h IDR_TEST_DLL s files).getLast?
            = some (Event.FreeLibrary (mainAnswers h IDR_TEST_DLL s).hDll)) := by
  obtain ⟨-, -, hl, hu, hi⟩ := traced_ctor h (MAKEINTRESOURCE IDR_TEST_DLL) nullptr s []
  rw [main_trace]
  simp only [loads_append, unloads_append, invocations_append, hl, hu, hi]
  cases hres : (mainAnswers h IDR_TEST_DLL s).resolved with
  | error e => simp [loads, unloads, invocations, Except.isOk, Except.toBool]
  | ok v =>
    by_cases hd : (mainAnswers h IDR_TEST_DLL s).hDll = nullptr
    · simp [loads, unloads, invocations, Except.isOk, Except.toBool, hd]
    · by_cases hp : (mainAnswers h IDR_TEST_DLL s).pfnDllHello = nullptr
      · simp [loads, unloads, invocations, Except.isOk, Except.toBool, hd, hp,
          loads_append, unloads_append, invocations_append]
      · simp [loads, unloads, invocations, Except.isOk, Except.toBool, hd, hp,
          loads_append, unloads_append, invocations_append]

theorem extract_files {σ : Type} (h : Host σ) (w : World σ) (p : LPCVOID) (n : Nat)
    (q : String) :
    (ofstream.write h (ofstream.ctor h dllFilename outMode w).1 p n
        (ofstream.ctor h dllFilename outMode w).2).files q
      = if (h.openFile dllFilename outMode w.os).1 = true ∧ q = dllFilename then
          w.files q ++ readBytes h (h.openFile dllFilename outMode w.os).2 p n
        else w.files q := by
  unfold ofstream.write ofstream.ctor
  dsimp only
  have happ : outMode.app = true := rfl
  rw [happ]
  generalize h.openFile dllFilename outMode w.os = o
  obtain ⟨ob, os⟩ := o
  cases ob <;> by_cases hq : q = dllFilename <;> simp [hq]

theorem main_files {σ : Type} (h : Host σ) (IDR_TEST_DLL : Nat) (w0 : World σ) (q : String) :
    (main h IDR_TEST_DLL w0).2.files q =
      match (mainAnswers h IDR_TEST_DLL w0.os).resolved with
      | .error _ => w0.files q
      | .ok v =>
        if (mainAnswers h IDR_TEST_DLL w0.os).opened = true ∧ q = dllFilename then
          w0.files q ++ readBytes h (mainAnswers h IDR_TEST_DLL w0.os).atWrite v.Data v.Size
        else w0.files q := by
  unfold main mainAnswers
  dsimp only
  cases hres : (ResourceBinaryView.ctor h (MAKEINTRESOURCE IDR_TEST_DLL) nullptr w0.os).1 with
  | error e => simp [handler]
  | ok v =>
    dsimp only
    split_ifs <;> simp only [handler, extract_files] <;> simp_all

theorem ctor_ok_initialised {σ : Type} (h : Host σ) (resourceId : LPCTSTR) (hModule : HMODULE)
    (s : σ) (v : ResourceBinaryView)
    (hv : (ResourceBinaryView.ctor h resourceId hModule s).1 = .ok v) : v.IsInitialised := by
  unfold ResourceBinaryView.ctor at hv
  dsimp only at hv
  cases hr : (ResourceBinaryView.Init h {} resourceId hModule s).raised with
  | some e => rw [hr] at hv; exact absurd hv (by simp)
  | none =>
    rw [hr] at hv
    obtain ⟨hview, hp, hn⟩ := Init_view_of_returned h {} resourceId hModule s hr
    have hv2 : (ResourceBinaryView.Init h {} resourceId hModule s).view = v := by
      simpa using hv
    rw [← hv2, hview]
    exact ⟨hp, Nat.pos_of_ne_zero hn⟩

/-! ## C6: the extracted file -/

/-- C6 (as the code behaves): take a run of `main` in which the resource
resolves to a view of the bytes `B` (length `N`) and the destination stream
opens, on a destination file whose content is `F`.  Then `N > 0` and
`N = Size()`, and the run leaves
the file equal to `F` followed by `B`; from a fresh destination (`F` empty)
the file is `B`, of length `N`.  A second such run on the files the first
one left makes it `F`, `B`, `B`: of length `2 N` from a fresh destination. -/
theorem C6_extraction_appends {σ : Type} (h : Host σ) (IDR_TEST_DLL : Nat)
    (w1 w2 : World σ) (v1 v2 : ResourceBinaryView) (F B : List BYTE) (N : Nat)
    (hF : w1.files dllFilename = F)
    (hres1 : (mainAnswers h IDR_TEST_DLL w1.os).resolved = .ok v1)
    (hopen1 : (mainAnswers h IDR_TEST_DLL w1.os).opened = true)
    (hB1 : readBytes h (mainAnswers h IDR_TEST_DLL w1.os).atWrite v1.Data v1.Size = B)
    (hN : B.length = N)
    (hfiles2 : w2.files = (main h IDR_TEST_DLL w1).2.files)
    (hres2 : (mainAnswers h IDR_TEST_DLL w2.os).resolved = .ok v2)
    (hopen2 : (mainAnswers h IDR_TEST_DLL w2.os).opened = true)
    (hB2 : readBytes h (mainAnswers h IDR_TEST_DLL w2.os).atWrite v2.Data v2.Size = B) :
    0 < N ∧ v1.Size = N
      ∧ (main h IDR_TEST_DLL w1).2.files dllFilename = F ++ B
      ∧ (F = [] → (main h IDR_TEST_DLL w1).2.files dllFilename = B
                  ∧ ((main h IDR_TEST_DLL w1).2.files dllFilename).length = N)
      ∧ (main h IDR_TEST_DLL w2).2.files dllFilename = F ++ B ++ B
      ∧ (F = [] → ((main h IDR_TEST_DLL w2).2.files dllFilename).length = 2 * N) := by
  have hsize : v1.Size = N := by
    rw [← hN, ← hB1, readBytes_length]
  have hpos : 0 < N := by
    rw [← hsize]
    exact (ctor_ok_initialised h (MAKEINTRESOURCE IDR_TEST_DLL) nullptr w1.os v1 hres1).2
  have h1 : (main h IDR_TEST_DLL w1).2.files dllFilename = F ++ B := by
    rw [main_files, hres1]
    dsimp only
    rw [if_pos ⟨hopen1, rfl⟩, hB1, hF]
  have h2 : (main h IDR_TEST_DLL w2).2.files dllFilename = F ++ B ++ B := by
    rw [main_files, hres2]
    dsimp only
    rw [if_pos ⟨hopen2, rfl⟩, hB2, hfiles2, h1]
  refine ⟨hpos, hsize, h1, ?_, h2, ?_⟩
  · intro hnil
    rw [h1, hnil, List.nil_append]
    exact ⟨rfl, hN⟩
  · intro hnil
    rw [h2, hnil, List.nil_append, List.length_append, hN, Nat.two_mul]

/-- C6, an instance: on the example host, with no file at first, one run
leaves the four bytes `0, 1, 2, 3` of resource `101`, a second run eight bytes. -/
theorem C6_extraction_appends_witness :
    (main (scripted demo) 101 (World.start 0 noFiles)).2.files dllFilename = [0, 1, 2, 3]
      ∧ ((main (scripted demo) 101
            (World.start 0 (main (scripted demo) 101 (World.start 0 noFiles)).2.files)).2.files
          dllFilename).length = 2 * 4 :=
  have t := C6_extraction_appends (scripted demo) 101 (World.start 0 noFiles)
    (World.start 0 (main (scripted demo) 101 (World.start 0 noFiles)).2.files)
    { m_data := 4096, m_size := 4 } { m_data := 4096, m_size := 4 } [] [0, 1, 2, 3] 4
    rfl rfl (by decide) (by decide) (by decide) rfl rfl (by decide) (by decide)
  ⟨(t.2.2.2.1 rfl).1, t.2.2.2.2.2 rfl⟩

/-- C6 as written fails: on a host that refuses to open the destination file,
with the resource resolving to the four bytes `0, 1, 2, 3` at `4096` and the
destination holding `9, 8, 7`, the run leaves the file as it was, not followed
by the resource's bytes; from a fresh destination the file stays empty. -/
theorem C6_counterexample_file_unchanged :
    (mainAnswers (scripted { demo with openOk := false }) 101 0).resolved
        = .ok { m_data := 4096, m_size := 4 }
      ∧ readBytes (scripted { demo with openOk := false })
          (mainAnswers (scripted { demo with openOk := false }) 101 0).atWrite 4096 4
          = [0, 1, 2, 3]
      ∧ oldDll dllFilename = [9, 8, 7]
      ∧ (main (scripted { demo with openOk := false }) 101 (World.start 0 oldDll)).2.files
          dllFilename = [9, 8, 7]
      ∧ (main (scripted { demo with openOk := false }) 101 (World.start 0 oldDll)).2.files
          dllFilename ≠ [9, 8, 7] ++ [0, 1, 2, 3]
      ∧ (main (scripted { demo with openOk := false }) 101 (World.start 0 noFiles)).2.files
          dllFilename ≠ [0, 1, 2, 3] :=
  ⟨rfl, by decide, by decide, by decide, by decide, by decide⟩

/-! ## C7: the exit code -/

/-- C7 (as the code behaves): `main` returns `0` or `1`; it returns `0` exactly
when the resource resolves, `LoadLibrary` answers a non-null handle and
`GetProcAddress` answers a non-null address for "DllHello", and `1` exactly
when one of the three fails; the exported function is called once when `main`
returns `0` and not at all when it returns `1`.  Whether the destination
stream opened does not enter. -/
theorem C7_exit_code {σ : Type} (h : Host σ) (IDR_TEST_DLL : Nat) (s : σ)
    (files : String → List BYTE) :
    ((main h IDR_TEST_DLL (World.start s files)).1 = 0
        ∨ (main h IDR_TEST_DLL (World.start s files)).1 = 1)
      ∧ ((main h IDR_TEST_DLL (World.start s files)).1 = 0 ↔
          ((mainAnswers h IDR_TEST_DLL s).resolved.isOk = true
            ∧ (mainAnswers h IDR_TEST_DLL s).hDll ≠ nullptr
            ∧ (mainAnswers h IDR_TEST_DLL s).pfnDllHello ≠ nullptr))
      ∧ ((main h IDR_TEST_DLL (World.start s files)).1 = 1 ↔
          ((mainAnswers h IDR_TEST_DLL s).resolved.isOk = false
            ∨ (mainAnswers h IDR_TEST_DLL s).hDll = nullptr
            ∨ (mainAnswers h IDR_TEST_DLL s).pfnDllHello = nullptr))
      ∧ invocations (mainTrace h IDR_TEST_DLL s files)
          = (if (main h IDR_TEST_DLL (World.start s files)).1 = 0
              then [(mainAnswers h IDR_TEST_DLL s).pfnDllHello] else []) := by
  have he := main_exit h IDR_TEST_DLL (World.start s files)
  have hi := (main_loads_unloads h IDR_TEST_DLL s files).2.2.1
  have he : (main h IDR_TEST_DLL (World.start s files)).1 =
      if (mainAnswers h IDR_TEST_DLL s).resolved.isOk = true
          ∧ (mainAnswers h IDR_TEST_DLL s).hDll ≠ nullptr
          ∧ (mainAnswers h IDR_TEST_DLL s).pfnDllHello ≠ nullptr
      then kExitOk else kExitError := he
  rw [hi, he]
  by_cases hall : (mainAnswers h IDR_TEST_DLL s).resolved.isOk = true
        ∧ (mainAnswers h IDR_TEST_DLL s).hDll ≠ nullptr
        ∧ (mainAnswers h IDR_TEST_DLL s).pfnDllHello ≠ nullptr
  · rw [if_pos hall, if_pos hall]
    simp [kExitOk, hall]
  · rw [if_neg hall, if_neg hall]
    have h10 : ¬ (kExitError = 0) := by decide
    have h11 : kExitError = 1 := rfl
    refine ⟨Or.inr h11, ⟨fun h0 => absurd h0 h10, fun hp => absurd hp hall⟩,
      ⟨fun _ => ?_, fun _ => h11⟩, by rw [if_neg h10]⟩
    by_contra hcon
    apply hall
    simp only [not_or, Bool.not_eq_false] at hcon
    exact hcon

/-- C7 as written fails: on a host that refuses to open the destination file
while the resource resolves, the module loads and "DllHello" is exported,
`main` returns `0` and calls the exported function, although the file could
not be opened and nothing was written to it. -/
theorem C7_counterexample_open_failure :
    (mainAnswers (scripted { demo with openOk := false }) 101 0).opened = false
      ∧ (main (scripted { demo with openOk := false }) 101 (World.start 0 noFiles)).1 = 0
      ∧ (main (scripted { demo with openOk := false }) 101 (World.start 0 noFiles)).2.files
          dllFilename = []
      ∧ invocations (mainTrace (scripted { demo with openOk := false }) 101 0 noFiles)
          = [69632] := by
  decide

/-! ## C8: the loaded module is unloaded exactly once -/

/-- C8: over the host calls of one run of `main`: a non-null handle answered
by `LoadLibrary` is passed to `FreeLibrary` exactly once, and that is the last
host call of the run (after the call of the exported function, and on the
path where the symbol is not found); when every `LoadLibrary` answer in the
trace is null (the load failed, or the run never reached it because the
resource did not resolve) `FreeLibrary` is not called; no run has two
`FreeLibrary` calls or two `LoadLibrary` calls, and `LoadLibrary` is called
exactly when the resource resolved. -/
theorem C8_unload_exactly_once {σ : Type} (h : Host σ) (IDR_TEST_DLL : Nat) (s : σ)
    (files : String → List BYTE) :
    (∀ hDll, hDll ≠ nullptr → hDll ∈ loads (mainTrace h IDR_TEST_DLL s files) →
        unloads (mainTrace h IDR_TEST_DLL s files) = [hDll]
          ∧ (mainTrace h IDR_TEST_DLL s files).getLast? = some (Event.FreeLibrary hDll))
      ∧ ((∀ hDll, hDll ∈ loads (mainTrace h IDR_TEST_DLL s files) → hDll = nullptr) →
          unloads (mainTrace h IDR_TEST_DLL s files) = [])
      ∧ (unloads (mainTrace h IDR_TEST_DLL s files)).length ≤ 1
      ∧ (loads (mainTrace h IDR_TEST_DLL s files)).length ≤ 1
      ∧ loads (mainTrace h IDR_TEST_DLL s files)
          = (if (mainAnswers h IDR_TEST_DLL s).resolved.isOk = true
              then [(mainAnswers h IDR_TEST_DLL s).hDll] else []) := by
  obtain ⟨hl, hu, -, hlast⟩ := main_loads_unloads h IDR_TEST_DLL s files
  rw [hl, hu]
  by_cases hres : (mainAnswers h IDR_TEST_DLL s).resolved.isOk = true
  · by_cases hd : (mainAnswers h IDR_TEST_DLL s).hDll = nullptr
    · simp [hres, hd]
    · have hlast2 := hlast hres hd
      simp only [hres, hd, if_true, true_and, ne_eq, not_false_eq_true, List.mem_singleton,
        List.length_singleton, le_refl, and_true]
      refine ⟨?_, ?_⟩
      · intro x _ hx
        subst hx
        exact ⟨rfl, hlast2⟩
      · intro hall
        exact absurd (hall _ rfl) hd
  · simp [hres]

/-- C8, instances on the example host: the host calls of the full run, where
the module loaded at `65536` is unloaded once, last; the run in which
"DllHello" is not found, where it is unloaded once, last, as well; and the run
in which the load fails, which has no unload. -/
theorem C8_unload_exactly_once_witness :
    mainTrace (scripted demo) 101 0 noFiles
        = [Event.FindResource 0 101 10 20, Event.LoadResource 0 20 30,
           Event.LockResource 30 4096, Event.SizeofResource 0 20 4,
           Event.openFile "TestMyDll.dll" outMode true,
           Event.LoadLibrary "TestMyDll.dll" 65536,
           Event.GetProcAddress 65536 "DllHello" 69632,
           Event.invoke 69632, Event.FreeLibrary 65536]
      ∧ unloads (mainTrace (scripted demo) 101 0 noFiles) = [65536]
      ∧ mainTrace (scripted { demo with proc := 0 }) 101 0 noFiles
        = [Event.FindResource 0 101 10 20, Event.LoadResource 0 20 30,
           Event.LockResource 30 4096, Event.SizeofResource 0 20 4,
           Event.openFile "TestMyDll.dll" outMode true,
           Event.LoadLibrary "TestMyDll.dll" 65536,
           Event.GetProcAddress 65536 "DllHello" 0, Event.FreeLibrary 65536]
      ∧ unloads (mainTrace (scripted { demo with proc := 0 }) 101 0 noFiles) = [65536]
      ∧ loads (mainTrace (scripted { demo with module := 0 }) 101 0 noFiles) = [0]
      ∧ unloads (mainTrace (scripted { demo with module := 0 }) 101 0 noFiles) = [] :=
  ⟨by decide,
    ((C8_unload_exactly_once (scripted demo) 101 0 noFiles).1 65536
      (by decide) (by decide)).1,
    by decide,
    ((C8_unload_exactly_once (scripted { demo with proc := 0 }) 101 0 noFiles).1 65536
      (by decide) (by decide)).1,
    by decide,
    (C8_unload_exactly_once (scripted { demo with module := 0 }) 101 0 noFiles).2.1
      (by decide)⟩

end CppResourceExtractor
